import Mathlib

/-!
Verification of the dpanahub-rdm download engine against its specification.

Each namespace shallowly embeds one module of the TypeScript source:

* `SessionMgr`   — engines/SessionManager (per-download session tokens)
* `Bus`          — engines/EventBus (debounced state-changed emission)
* `Breakers`     — engines/CircuitBreakerManager (global / per-host selection)
* `Queue`        — engines/QueueProcessor `selectDownloadsToStart`
* `Limiter`      — utils/rateLimiter `RateLimiter.isAllowed`
* `Schemas`      — utils/schemas `validateDownloadSettings`
* `Paths`        — utils/downloadPath `validateDownloadPathSync`
* `Tail`         — utils/partialIntegrity `hashLastNBytes` / `verifyPartialTail`
* `Chunks`       — engines/ChunkManager (active-chunk store cleanup)

JavaScript `Map<K, V>` state is modelled either as a total function
`K → Option V` (when only lookups matter) or as an association list with
unique keys (when the key set is iterated).  Nondeterministic or external
inputs (`Date.now()`, `Math.random()`, `path.resolve`, `new URL(...).hostname`,
SHA-256 from node:crypto, the file system) are explicit parameters.

All definitions come first; the theorems follow at the end of the file.
-/

/-- JavaScript `String.prototype.startsWith`. -/
def strStartsWith (s pre : String) : Bool :=
  pre.data.isPrefixOf s.data

/-- JavaScript `String.prototype.toLowerCase`, on the ASCII paths the
source applies it to. -/
def lowerAscii (s : String) : String :=
  String.mk (s.data.map Char.toLower)

/-- JavaScript `String.prototype.trim`. -/
def trimStr (s : String) : String :=
  String.mk (((s.data.dropWhile Char.isWhitespace).reverse.dropWhile
    Char.isWhitespace).reverse)

/-- Whether a character list contains two consecutive dots. -/
def hasDotDot : List Char → Bool
  | '.' :: '.' :: _ => true
  | _ :: rest => hasDotDot rest
  | [] => false

/-- JavaScript `s.includes(\x27..\x27)` (substring test for two dots; any
occurrence of `..` in a string is two consecutive dots). -/
def containsDotDot (s : String) : Bool := hasDotDot s.data

namespace SessionMgr

/-- The `sessions` map of `SessionManager`: downloadId → current sessionId.
`Map.get` returning `undefined` is `none`. -/
abbrev SMap : Type := Nat → Option String

/-- Embeds `Map.set(downloadId, sessionId)`. -/
def mapSet (d : Nat) (v : String) (m : SMap) : SMap :=
  fun n => if n = d then some v else m n

/-- Embeds `Map.delete(downloadId)`. -/
def mapDelete (d : Nat) (m : SMap) : SMap :=
  fun n => if n = d then none else m n

/-- The session id generated by `createSession`:
`Date.now()` followed by a dash and a random base-36 suffix.
`now` stands for `Date.now()` and `rand` for the random suffix. -/
def mkSessionId (now : Nat) (rand : String) : String :=
  toString now ++ "-" ++ rand

/-- Embeds `createSession(downloadId)`: stores a fresh session id and returns it. -/
def createSession (d : Nat) (now : Nat) (rand : String) (m : SMap) :
    String × SMap :=
  (mkSessionId now rand, mapSet d (mkSessionId now rand) m)

/-- Embeds `invalidate(downloadId)`: `sessions.delete(downloadId)`. -/
def invalidate (d : Nat) (m : SMap) : SMap := mapDelete d m

/-- Embeds `getSessionId(downloadId)`: `sessions.get(downloadId) ?? null`. -/
def getSessionId (d : Nat) (m : SMap) : Option String := m d

/-- Embeds `isCurrent(downloadId, sessionId)`.  The guard `if (!sessionId) return
true` is truthy on both `null` and the empty string. -/
def isCurrent (d : Nat) (sessionId : Option String) (m : SMap) : Bool :=
  match sessionId with
  | none => true
  | some s => if s = "" then true else getSessionId d m == some s

/-- One SessionManager call affecting the map, tagged by the download it
targets (used to state that a token stays current until the next
`createSession` or `invalidate` for the same download). -/
inductive Op : Type
  | create (d : Nat) (now : Nat) (rand : String)
  | invalidateOp (d : Nat)

/-- The download id an operation targets. -/
def Op.target : Op → Nat
  | .create d _ _ => d
  | .invalidateOp d => d

/-- Apply one operation to the sessions map. -/
def Op.apply (m : SMap) : Op → SMap
  | .create d now rand => (createSession d now rand m).2
  | .invalidateOp d => invalidate d m

end SessionMgr

namespace Bus

/-- Debounce-relevant state of the `EventBus`: `_stateChangePending`,
whether `_stateChangeTimer` is non-null, and the versions carried by the
`stateChanged` events emitted so far. -/
structure BusState where
  pending : Option Nat
  timerActive : Bool
  emitted : List Nat
  deriving Repr, DecidableEq

/-- The bus before any `emitStateChanged` of the window: no pending
version, no timer, nothing emitted. -/
def initialBus : BusState := { pending := none, timerActive := false, emitted := [] }

/-- Embeds `emitStateChanged(stateVersion)`: records the version as pending and
arms the timer when no timer is armed; it never emits directly. -/
def emitStateChanged (v : Nat) (s : BusState) : BusState :=
  let s1 := { s with pending := some v }
  if s1.timerActive then s1 else { s1 with timerActive := true }

/-- The debounce timer firing: clears the timer and the pending version,
and emits `stateChanged` with the pending version when there is one. -/
def fireTimer (s : BusState) : BusState :=
  { pending := none
    timerActive := false
    emitted :=
      s.emitted ++ (match s.pending with | some v => [v] | none => []) }

/-- Embeds `config.ui?.stateChangeDebounceMs ?? 50`. -/
def stateChangeDebounceMs (uiDebounce : Option Nat) : Nat :=
  uiDebounce.getD 50

end Bus

namespace Breakers

/-- The options `CircuitBreakerManager` passes to `new CircuitBreaker(...)`
(utils/circuitBreaker).  The breaker's internal failure-counting state is
irrelevant to which breaker the manager selects and is not modelled. -/
structure CircuitBreaker where
  name : String
  failureThreshold : Nat
  successThreshold : Nat
  timeout : Nat
  resetTimeout : Nat
  deriving Repr, DecidableEq

/-- The `download` section of `config.circuitBreaker` (all fields may be
absent). -/
structure CBDownloadConfig where
  failureThreshold : Option Nat
  successThreshold : Option Nat
  timeout : Option Nat
  resetTimeout : Option Nat
  deriving Repr, DecidableEq

/-- The `perHost` section of `config.circuitBreaker`. -/
structure CBPerHostConfig where
  enabled : Option Bool
  failureThreshold : Option Nat
  timeout : Option Nat
  deriving Repr, DecidableEq

/-- Embeds `config.circuitBreaker` (the `CircuitBreakerConfig` interface). -/
structure CBConfig where
  enabled : Option Bool
  download : Option CBDownloadConfig
  perHost : Option CBPerHostConfig
  deriving Repr, DecidableEq

/-- JavaScript truthiness of an optional boolean config flag. -/
def truthy (o : Option Bool) : Bool := o.getD false

/-- The manager's mutable fields: `globalCircuitBreaker` and the
`hostCircuitBreakers` map (association list with unique keys). -/
structure CircuitBreakerManager where
  globalCircuitBreaker : Option CircuitBreaker
  hostCircuitBreakers : List (String × CircuitBreaker)
  deriving Repr, DecidableEq

/-- The `CircuitBreakerManager` constructor: creates the global breaker
(with defaults 5 / 2 / 60000 / 60000) when `config.circuitBreaker.enabled`
is truthy. -/
def mkManager (cfg : Option CBConfig) : CircuitBreakerManager :=
  if truthy (cfg.bind (·.enabled)) then
    let downloadConfig := (cfg.bind (·.download)).getD ⟨none, none, none, none⟩
    { globalCircuitBreaker := some
        { name := "DownloadEngine"
          failureThreshold := downloadConfig.failureThreshold.getD 5
          successThreshold := downloadConfig.successThreshold.getD 2
          timeout := downloadConfig.timeout.getD 60000
          resetTimeout := downloadConfig.resetTimeout.getD 60000 }
      hostCircuitBreakers := [] }
  else
    { globalCircuitBreaker := none, hostCircuitBreakers := [] }

/-- Embeds `config.circuitBreaker?.perHost?.enabled` as a boolean. -/
def perHostEnabled (cfg : Option CBConfig) : Bool :=
  truthy ((cfg.bind (·.perHost)).bind (·.enabled))

/-- Embeds `getCircuitBreaker(url)`.  `parseHost` stands for
`new URL(url).hostname`, with `none` for the constructor throwing (the
`catch` branch falls back to the global breaker).  Returns the selected
breaker together with the (possibly extended) manager state. -/
def getCircuitBreaker (parseHost : String → Option String)
    (cfg : Option CBConfig) (mgr : CircuitBreakerManager) (url : String) :
    Option CircuitBreaker × CircuitBreakerManager :=
  if perHostEnabled cfg = false then
    (mgr.globalCircuitBreaker, mgr)
  else
    match parseHost url with
    | none => (mgr.globalCircuitBreaker, mgr)
    | some host =>
      match mgr.hostCircuitBreakers.lookup host with
      | some cb => (some cb, mgr)
      | none =>
        let perHostConfig := (cfg.bind (·.perHost)).getD ⟨none, none, none⟩
        let cb : CircuitBreaker :=
          { name := "Host-" ++ host
            failureThreshold := perHostConfig.failureThreshold.getD 10
            successThreshold := 2
            timeout := perHostConfig.timeout.getD 120000
            resetTimeout := 60000 }
        (some cb,
          { mgr with hostCircuitBreakers := (host, cb) :: mgr.hostCircuitBreakers })

end Breakers

namespace Queue

/-- Modelled from the spec: the canonical download states of the state
machine (engines/types is not under inspection; `selectDownloadsToStart`
only ever queries `QUEUED`). -/
inductive DownloadState : Type
  | queued
  | starting
  | downloading
  | paused
  | completed
  | failed
  deriving Repr, DecidableEq

/-- A row returned by the state store / scheduler, reduced to the only
field `selectDownloadsToStart` reads: `(d as { id: number }).id`, which a
malformed row may leave null/undefined (`none`). -/
structure QueueItem where
  id : Option Nat
  deriving Repr, DecidableEq

/-- The slice of the `StateStore` interface used by
`selectDownloadsToStart`. -/
structure StateStoreModel where
  getDownloadsByStateLimited : DownloadState → Nat → List QueueItem
  summaryQueued : Nat

/-- The slice of the `Scheduler` interface used here: its own
`selectDownloadsToStart(queued, slotsAvailable, globalActiveCount)`. -/
structure SchedulerModel where
  selectDownloadsToStart : List QueueItem → Int → Nat → List QueueItem

/-- The slice of the `ConcurrencyController` interface used here. -/
structure ConcurrencyControllerModel where
  getAvailableGlobalSlots : Int
  getGlobalActiveCount : Nat

/-- Embeds `SelectDownloadsToStartOptions`. -/
structure SelectOptions where
  maxQueueBatchSize : Nat
  excludeIds : Option (List Nat)

/-- Embeds `options.excludeIds?.has(id)` (undefined set is falsy). -/
def hasId (o : Option (List Nat)) (i : Nat) : Bool :=
  match o with
  | none => false
  | some l => i ∈ l

/-- Embeds `SelectDownloadsToStartResult`. -/
structure SelectResult where
  toStart : List QueueItem
  queuedCount : Nat
  slotsAvailable : Int
  deriving Repr, DecidableEq

/-- Embeds `selectDownloadsToStart(stateStore, scheduler, concurrencyController,
options)` from engines/QueueProcessor. -/
def selectDownloadsToStart (stateStore : StateStoreModel)
    (scheduler : SchedulerModel) (cc : ConcurrencyControllerModel)
    (options : SelectOptions) : SelectResult :=
  let queued :=
    stateStore.getDownloadsByStateLimited .queued options.maxQueueBatchSize
  let queuedCount := stateStore.summaryQueued
  if queued = [] then
    { toStart := []
      queuedCount := 0
      slotsAvailable := cc.getAvailableGlobalSlots }
  else
    let slotsAvailable := cc.getAvailableGlobalSlots
    let globalActiveCount := cc.getGlobalActiveCount
    if slotsAvailable ≤ 0 then
      { toStart := [], queuedCount := queuedCount, slotsAvailable := 0 }
    else
      let toStart :=
        scheduler.selectDownloadsToStart queued slotsAvailable globalActiveCount
      let toStartMapped :=
        (toStart.map (fun d => QueueItem.mk d.id)).filter (fun d =>
          match d.id with
          | none => false
          | some i => !hasId options.excludeIds i)
      { toStart := toStartMapped
        queuedCount := queuedCount
        slotsAvailable := slotsAvailable }

end Queue

namespace Limiter

/-- The `requests` map of `RateLimiter`: identifier → recorded timestamps.
`requests.get(identifier) ?? []` is the applied function. -/
abbrev RMap : Type := String → List Int

/-- Embeds `Map.set(identifier, list)`. -/
def rmapSet (m : RMap) (k : String) (v : List Int) : RMap :=
  fun x => if x = k then v else m x

/-- The limiter's configuration fields (validated positive by the
constructor, which throws otherwise). -/
structure RateLimiter where
  maxRequests : Int
  windowMs : Int
  deriving Repr, DecidableEq

/-- The constructor: throws (`none`) when `maxRequests <= 0 || windowMs <= 0`. -/
def mkRateLimiter (maxRequests windowMs : Int) : Option RateLimiter :=
  if maxRequests ≤ 0 ∨ windowMs ≤ 0 then none
  else some { maxRequests := maxRequests, windowMs := windowMs }

/-- Embeds `isAllowed(identifier)` at time `now` (`Date.now()`): the invalid-identifier
guard (`!identifier` is truthy on the empty string), then the sliding-window
count, recording the request only in the allowed branch.  Returns the
result together with the updated map. -/
def isAllowed (rl : RateLimiter) (identifier : String) (now : Int)
    (m : RMap) : Bool × RMap :=
  if identifier = "" then (false, m)
  else
    let userRequests := m identifier
    let recentRequests := userRequests.filter (fun ts => now - ts < rl.windowMs)
    if rl.maxRequests ≤ (recentRequests.length : Int) then (false, m)
    else (true, rmapSet m identifier (recentRequests ++ [now]))

end Limiter

namespace Schemas

/-- The argument of `validateDownloadSettings` with the fields of
`downloadSettingsSchema`, each optional; numeric fields are rationals so
that the `.int()` checks are non-trivial. -/
structure DownloadSettingsInput where
  maxParallelDownloads : Option ℚ
  maxConcurrentChunks : Option ℚ
  maxChunkRetries : Option ℚ
  chunkOperationTimeoutMinutes : Option ℚ
  skipVerification : Option Bool
  disableChunkedDownloads : Option Bool
  turboDownload : Option Bool
  deriving DecidableEq

/-- Embeds `ZodValidationResult`: `success` with an optional `error` message
(the parsed `data` is omitted). -/
structure ZodValidationResult where
  success : Bool
  error : Option String
  deriving Repr, DecidableEq

/-- The issues produced by `z.number().int().min(lo).max(hi).optional()`
on one field (an absent field is valid; zod reports every failed check). -/
def intIssues (label : String) (lo hi : ℚ) : Option ℚ → List String
  | none => []
  | some v =>
    (if v.den = 1 then [] else [label ++ ": expected integer"]) ++
    (if v < lo then [label ++ ": below minimum"] else []) ++
    (if hi < v then [label ++ ": above maximum"] else [])

/-- The issues produced by `z.number().min(lo).max(hi).optional()`. -/
def numIssues (label : String) (lo hi : ℚ) : Option ℚ → List String
  | none => []
  | some v =>
    (if v < lo then [label ++ ": below minimum"] else []) ++
    (if hi < v then [label ++ ": above maximum"] else [])

/-- All issues `downloadSettingsSchema.safeParse` reports on the input
(the three boolean fields are typed `z.boolean().optional()` and can
produce none). -/
def downloadSettingsIssues (s : DownloadSettingsInput) : List String :=
  intIssues "maxParallelDownloads" 1 10 s.maxParallelDownloads ++
  intIssues "maxConcurrentChunks" 1 16 s.maxConcurrentChunks ++
  intIssues "maxChunkRetries" 0 50 s.maxChunkRetries ++
  numIssues "chunkOperationTimeoutMinutes" (1/2) 60 s.chunkOperationTimeoutMinutes

/-- Embeds `validateDownloadSettings(params)`: `validate(downloadSettingsSchema,
params)` — success when no issue, otherwise the issues joined as the
error message. -/
def validateDownloadSettings (s : DownloadSettingsInput) : ZodValidationResult :=
  let issues := downloadSettingsIssues s
  if issues.isEmpty then { success := true, error := none }
  else { success := false, error := some (String.intercalate "; " issues) }

/-- A supplied value passes `z.number().int().min(lo).max(hi)`. -/
def intInRange (lo hi : ℚ) (o : Option ℚ) : Prop :=
  ∀ v, o = some v → v.den = 1 ∧ lo ≤ v ∧ v ≤ hi

/-- A supplied value passes `z.number().min(lo).max(hi)`. -/
def numInRange (lo hi : ℚ) (o : Option ℚ) : Prop :=
  ∀ v, o = some v → lo ≤ v ∧ v ≤ hi

end Schemas

namespace Paths

/-- Embeds `process.platform`, restricted to the three values the module
branches on. -/
inductive Platform : Type
  | win32
  | linux
  | darwin
  deriving Repr, DecidableEq

/-- Embeds `path.sep`. -/
def sep : Platform → String
  | .win32 => "\\"
  | _ => "/"

/-- The regex replace removing trailing (back)slashes:
`replace(/[/\\]+$/, \x27\x27)`. -/
def dropTrailingSeps (s : String) : String :=
  String.mk ((s.data.reverse.dropWhile (fun c => c == '/' || c == '\\')).reverse)

/-- The regex replace `replace(/:$/, \x27\x27)` applied to `SYSTEMDRIVE`. -/
def dropColonSuffix (s : String) : String :=
  if s.endsWith ":" then s.dropRight 1 else s

/-- Embeds `isSystemRoot(resolvedPath)`: Windows volume root (`^[A-Za-z]:$`) or
the empty string left after stripping the separators of `/`. -/
def isSystemRoot (platform : Platform) (resolvedPath : String) : Bool :=
  let normalized := dropTrailingSeps resolvedPath
  match platform with
  | .win32 =>
    (match normalized.data with
     | [c, colon] => c.isAlpha && colon == ':'
     | _ => false) || normalized == ""
  | _ => normalized == ""

/-- Embeds `getCriticalSystemPaths()`: the reserved OS directories, each passed
through `path.resolve` (the `resolve` parameter) and lowercased.
`systemDrive` is `process.env.SYSTEMDRIVE || \x27C:\x27`. -/
def getCriticalSystemPaths (resolve : String → String) (platform : Platform)
    (systemDrive : String) : List String :=
  (match platform with
   | .win32 =>
     let drive := dropColonSuffix systemDrive
     [drive ++ ":\\Windows", drive ++ ":\\Program Files",
      drive ++ ":\\Program Files (x86)", drive ++ ":\\ProgramData",
      drive ++ ":\\Recovery", drive ++ ":\\System Volume Information",
      drive ++ ":\\$Recycle.Bin"]
   | .linux =>
     ["/bin", "/sbin", "/boot", "/lib", "/lib64", "/usr/bin", "/usr/lib",
      "/usr/sbin", "/usr/share", "/etc", "/var", "/dev", "/proc", "/sys"]
   | .darwin =>
     ["/System", "/bin", "/sbin", "/usr/bin", "/usr/lib", "/Library",
      "/private", "/private/var", "/private/etc"]).map
    (fun p => lowerAscii (resolve p))

/-- Embeds `getSensitivePaths()`: warn-only directories, resolved and lowercased. -/
def getSensitivePaths (resolve : String → String) (platform : Platform)
    (systemDrive : String) : List String :=
  (match platform with
   | .linux => ["/root", "/tmp", "/run", "/sys"]
   | .darwin => ["/Applications", "/opt", "/tmp", "/var"]
   | .win32 => [dropColonSuffix systemDrive ++ ":\\Users\\Public"]).map
    (fun p => lowerAscii (resolve p))

/-- Embeds `isPathUnder(resolvedPath, basePaths)`: the probe is lowercased only
on Windows; probe and bases are stripped of trailing separators, a
separator is appended, and the probe must equal or start with a base. -/
def isPathUnder (platform : Platform) (resolvedPath : String)
    (basePaths : List String) : Bool :=
  let pathLower :=
    if platform = .win32 then lowerAscii resolvedPath else resolvedPath
  let pathNorm := dropTrailingSeps pathLower ++ sep platform
  basePaths.any (fun base =>
    let baseNorm := dropTrailingSeps base ++ sep platform
    pathNorm == baseNorm || strStartsWith pathNorm baseNorm)

/-- Embeds `normalizePathForValidation(input)`: trim, `path.resolve` (the
`resolve` parameter; it does not throw on strings), and rejection of any
resolved path still containing two consecutive dots. -/
def normalizePathForValidation (resolve : String → String)
    (input : String) : Option String :=
  let trimmed := trimStr input
  if trimmed = "" then none
  else
    let resolved := resolve trimmed
    if containsDotDot resolved then none else some resolved

/-- Embeds `DownloadPathValidationResult` (the `blockReason` field only ever
holds the value `critical`). -/
structure DownloadPathValidationResult where
  valid : Bool
  path : Option String
  error : Option String
  blockReason : Option String
  warningReason : Option String
  deriving Repr, DecidableEq

/-- Embeds `validateDownloadPathSync(downloadPath)`: normalization, system-root
block, critical-directory block, sensitive-directory warning.  (The async
variant adds only the write-permission check after the same blocks.) -/
def validateDownloadPathSync (resolve : String → String)
    (platform : Platform) (systemDrive : String) (downloadPath : String) :
    DownloadPathValidationResult :=
  match normalizePathForValidation resolve downloadPath with
  | none =>
    { valid := false, path := none
      error := some "Ruta no valida o contiene caracteres no permitidos"
      blockReason := none, warningReason := none }
  | some resolved =>
    let resolvedNorm :=
      if platform = .win32 then lowerAscii resolved else resolved
    if isSystemRoot platform resolved then
      { valid := false, path := some resolved
        error := some "No se puede usar la raiz del sistema como carpeta de descargas"
        blockReason := some "critical", warningReason := none }
    else if isPathUnder platform resolvedNorm
        (getCriticalSystemPaths resolve platform systemDrive) then
      { valid := false, path := some resolved
        error := some "Directorio critico para el sistema operativo"
        blockReason := some "critical", warningReason := none }
    else if isPathUnder platform resolvedNorm
        (getSensitivePaths resolve platform systemDrive) then
      { valid := true, path := some resolved, error := none
        blockReason := none, warningReason := some "sensitive" }
    else
      { valid := true, path := some resolved, error := none
        blockReason := none, warningReason := none }

end Paths

namespace Tail

/-- Embeds `PARTIAL_TAIL_BYTES`: the checkpoint hashes the last 64 KB. -/
def PARTIAL_TAIL_BYTES : Nat := 65536

/-- Embeds `hashLastNBytes(filePath, fileSize, nBytes)`.  `hash` stands for
hex SHA-256 from node:crypto, `data` for the file's bytes on disk; the
read of `toRead` bytes from offset `start` is `data.drop start |>.take
toRead`, and `fileSize <= 0` hashes the empty string. -/
def hashLastNBytes (hash : List Nat → String) (data : List Nat)
    (fileSize : Nat) (nBytes : Nat) : String :=
  if fileSize = 0 then hash []
  else
    let toRead := min nBytes fileSize
    let start := fileSize - toRead
    hash ((data.drop start).take toRead)

/-- Embeds `verifyPartialTail(filePath, expectedSize, expectedHash, nBytes)`.
`fsRead` models the file system: `none` when `fs.stat`/`fs.open` throws
(the `catch` returns false), otherwise the file's bytes (whose length is
`stat.size`). -/
def verifyPartialTail (hash : List Nat → String)
    (fsRead : String → Option (List Nat)) (filePath : String)
    (expectedSize : Nat) (expectedHash : String) (nBytes : Nat) : Bool :=
  match fsRead filePath with
  | none => false
  | some data =>
    if data.length ≠ expectedSize then false
    else hashLastNBytes hash data data.length nBytes == expectedHash

/-- The last `n` bytes of a byte list (the whole list when `n` exceeds
its length). -/
def lastBytes (data : List Nat) (n : Nat) : List Nat :=
  data.drop (data.length - n)

end Tail

namespace Chunks

/-- An `ActiveChunkEntry`: the handles are external resources whose
teardown is I/O, so only their presence is modelled; `cleanupThrows`
records whether releasing this entry's resources throws (the `catch`
swallows it). -/
structure ActiveChunkEntry where
  request : Option Bool
  response : Option Bool
  fileStream : Option Bool
  timeoutId : Option Nat
  progressCheckInterval : Option Nat
  cleanupThrows : Bool
  deriving Repr, DecidableEq

/-- The `_store` map of `ChunkManager`, an association list with unique
keys (JavaScript `Map` keys are unique). -/
abbrev Store : Type := List (String × ActiveChunkEntry)

/-- Embeds `ChunkManager.key(downloadId, chunkIndex)`. -/
def chunkKey (downloadId : Nat) (chunkIndex : Nat) : String :=
  toString downloadId ++ "-" ++ toString chunkIndex

/-- Embeds `cleanupChunk(chunkKey)`: when the key has no entry the method
returns early; otherwise the try/catch body aborts the request, destroys
response and stream and clears the timers — external effects that never
touch `_store`, with any exception caught and logged — and the
`_store.delete(chunkKey)` after the catch always runs.  On a unique-key
list `Map.delete` is the filter below. -/
def cleanupChunk (key : String) (store : Store) : Store :=
  match store.lookup key with
  | none => store
  | some _ => store.filter (fun kv => !(kv.1 == key))

/-- Embeds `cleanupForDownload(downloadId)`: `cleanupChunk` on every key of the
store that starts with the download's prefix.  (Deleting only the key
being visited is safe during JavaScript `Map` iteration, so iterating the
initial key list is equivalent.) -/
def cleanupForDownload (downloadId : Nat) (store : Store) : Store :=
  let pre := toString downloadId ++ "-"
  (store.map Prod.fst).foldl
    (fun st key => if strStartsWith key pre then cleanupChunk key st else st)
    store

end Chunks

/-! ## Theorems -/

namespace SessionMgr

/-- A generated session id is never the empty string. -/
theorem mkSessionId_ne_empty (now : Nat) (rand : String) :
    mkSessionId now rand ≠ "" := by
  intro h
  have h2 := congrArg String.length h
  rw [mkSessionId, String.length_append, String.length_append] at h2
  have h3 : ("-" : String).length = 1 := rfl
  have h4 : ("" : String).length = 0 := rfl
  omega

/-- Operations targeting other downloads do not change this download's
stored session. -/
theorem getSessionId_foldl (d : Nat) (ops : List Op)
    (hops : ∀ op ∈ ops, op.target ≠ d) (m : SMap) :
    getSessionId d (ops.foldl Op.apply m) = getSessionId d m := by
  induction ops generalizing m with
  | nil => rfl
  | cons op rest ih =>
    have hop : op.target ≠ d := hops op (by simp)
    have hrest : ∀ o ∈ rest, o.target ≠ d := fun o ho => hops o (by simp [ho])
    rw [List.foldl_cons, ih hrest]
    cases op with
    | create d' now rand =>
      simp only [Op.target] at hop
      have hne : d ≠ d' := fun h => hop h.symm
      simp [getSessionId, Op.apply, createSession, mapSet, hne]
    | invalidateOp d' =>
      simp only [Op.target] at hop
      have hne : d ≠ d' := fun h => hop h.symm
      simp [getSessionId, Op.apply, invalidate, mapDelete, hne]

end SessionMgr

namespace Bus

/-- Calling `emitStateChanged` never emits and always overwrites the pending
version with its argument. -/
theorem foldl_emitStateChanged (vs : List Nat) (s : BusState) (hvs : vs ≠ []) :
    (vs.foldl (fun t v => emitStateChanged v t) s).pending =
      some (vs.getLast hvs) ∧
    (vs.foldl (fun t v => emitStateChanged v t) s).emitted = s.emitted := by
  induction vs generalizing s with
  | nil => exact absurd rfl hvs
  | cons v rest ih =>
    rw [List.foldl_cons]
    cases rest with
    | nil =>
      constructor
      · unfold emitStateChanged
        by_cases h : s.timerActive <;> simp [h, List.getLast]
      · unfold emitStateChanged
        by_cases h : s.timerActive <;> simp [h]
    | cons w ws =>
      have hne : w :: ws ≠ [] := by simp
      obtain ⟨h1, h2⟩ := ih (emitStateChanged v s) hne
      refine ⟨?_, ?_⟩
      · rw [h1, List.getLast_cons hne]
      · rw [h2]
        unfold emitStateChanged
        by_cases h : s.timerActive <;> simp [h]

end Bus

/-- C1: after `invalidate(id)` every non-null token issued earlier (any
token of the `createSession` shape) is reported stale by `isCurrent`, so a
state-mutating callback carrying it is a no-op; and the fresh token
returned by `createSession(id)` is reported current, both immediately and
after any further `createSession`/`invalidate` calls that target other
downloads. -/
theorem sessionManager_invalidate_and_fresh_token
    (m : SessionMgr.SMap) (d : Nat) (tokNow : Nat) (tokRand : String)
    (now : Nat) (rand : String) (ops : List SessionMgr.Op)
    (hops : ∀ op ∈ ops, op.target ≠ d) :
    SessionMgr.isCurrent d (some (SessionMgr.mkSessionId tokNow tokRand))
      (SessionMgr.invalidate d m) = false ∧
    SessionMgr.isCurrent d (some (SessionMgr.createSession d now rand m).1)
      (SessionMgr.createSession d now rand m).2 = true ∧
    SessionMgr.isCurrent d (some (SessionMgr.createSession d now rand m).1)
      (ops.foldl SessionMgr.Op.apply (SessionMgr.createSession d now rand m).2)
      = true := by
  refine ⟨?_, ?_, ?_⟩
  · simp [SessionMgr.isCurrent, SessionMgr.getSessionId, SessionMgr.invalidate,
      SessionMgr.mapDelete, SessionMgr.mkSessionId_ne_empty tokNow tokRand]
  · simp [SessionMgr.isCurrent, SessionMgr.getSessionId, SessionMgr.createSession,
      SessionMgr.mapSet, SessionMgr.mkSessionId_ne_empty now rand]
  · rw [SessionMgr.isCurrent,
      SessionMgr.getSessionId_foldl d ops hops (SessionMgr.createSession d now rand m).2]
    simp [SessionMgr.getSessionId, SessionMgr.createSession, SessionMgr.mapSet,
      SessionMgr.mkSessionId_ne_empty now rand]

/-- Witness for C1 at concrete inputs: download 1, a stale token issued at
time 5, a fresh token issued at time 7, and later operations that target
downloads 2 and 3 only. -/
theorem sessionManager_invalidate_and_fresh_token_witness :
    SessionMgr.isCurrent 1 (some (SessionMgr.mkSessionId 5 "abc"))
      (SessionMgr.invalidate 1 (fun _ => none)) = false ∧
    SessionMgr.isCurrent 1 (some (SessionMgr.createSession 1 7 "xyz" (fun _ => none)).1)
      (SessionMgr.createSession 1 7 "xyz" (fun _ => none)).2 = true ∧
    SessionMgr.isCurrent 1 (some (SessionMgr.createSession 1 7 "xyz" (fun _ => none)).1)
      ([SessionMgr.Op.create 2 9 "q", SessionMgr.Op.invalidateOp 3].foldl
        SessionMgr.Op.apply (SessionMgr.createSession 1 7 "xyz" (fun _ => none)).2)
      = true :=
  sessionManager_invalidate_and_fresh_token (fun _ => none) 1 5 "abc" 7 "xyz"
    [SessionMgr.Op.create 2 9 "q", SessionMgr.Op.invalidateOp 3] (by decide)

/-- C9: `isCurrent(downloadId, null)` is true for every download and every
state of the sessions map, so a callback that carries no token is never
treated as stale. -/
theorem sessionManager_isCurrent_null_always_true
    (d : Nat) (m : SessionMgr.SMap) :
    SessionMgr.isCurrent d none m = true := rfl

/-- C3: any nonempty burst of `emitStateChanged(v1) … emitStateChanged(vk)`
arriving before the debounce timer fires produces exactly one
`stateChanged` emission, carrying the last version `vk`; the default
debounce window is 50 ms. -/
theorem eventBus_debounce_coalesces_to_last
    (vs : List Nat) (hvs : vs ≠ []) :
    (Bus.fireTimer (vs.foldl (fun s v => Bus.emitStateChanged v s)
        Bus.initialBus)).emitted = [vs.getLast hvs] ∧
    Bus.stateChangeDebounceMs none = 50 := by
  obtain ⟨h1, h2⟩ := Bus.foldl_emitStateChanged vs Bus.initialBus hvs
  refine ⟨?_, rfl⟩
  simp only [Bus.fireTimer]
  rw [h1, h2]
  simp [Bus.initialBus]

/-- Witness for C3: the burst 3, 7, 9 yields the single emission `[9]`. -/
theorem eventBus_debounce_coalesces_to_last_witness :
    (Bus.fireTimer ([3, 7, 9].foldl (fun s v => Bus.emitStateChanged v s)
        Bus.initialBus)).emitted = [9] ∧
    Bus.stateChangeDebounceMs none = 50 := by
  simpa using eventBus_debounce_coalesces_to_last [3, 7, 9] (by decide)

/-- C4: with per-host mode disabled `getCircuitBreaker` always returns the
manager's single global breaker (created by the constructor with defaults
F=5, S=2, timeout 60 s, resetTimeout 60 s when the feature is enabled and
the download section supplies nothing) and leaves the state unchanged;
with per-host mode enabled and a URL whose hostname parses, the breaker is
created on first use for that host with defaults F=10, timeout 120 s,
resetTimeout 60 s (per-host section supplying nothing), and every further
URL of the same host gets that same breaker with no state change. -/
theorem circuitBreakerManager_mode_selection
    (cfgOff cfgOn : Option Breakers.CBConfig)
    (parseHost : String → Option String)
    (mgrOff mgr : Breakers.CircuitBreakerManager)
    (url url2 host : String)
    (hoff : Breakers.perHostEnabled cfgOff = false)
    (henab : Breakers.truthy (cfgOff.bind (·.enabled)) = true)
    (hdl : cfgOff.bind (·.download) = none)
    (hon : Breakers.perHostEnabled cfgOn = true)
    (hurl : parseHost url = some host)
    (hurl2 : parseHost url2 = some host)
    (hlook : mgr.hostCircuitBreakers.lookup host = none)
    (hf : ((cfgOn.bind (·.perHost)).getD ⟨none, none, none⟩).failureThreshold = none)
    (ht : ((cfgOn.bind (·.perHost)).getD ⟨none, none, none⟩).timeout = none) :
    Breakers.getCircuitBreaker parseHost cfgOff mgrOff url =
      (mgrOff.globalCircuitBreaker, mgrOff) ∧
    (Breakers.mkManager cfgOff).globalCircuitBreaker =
      some ⟨"DownloadEngine", 5, 2, 60000, 60000⟩ ∧
    (Breakers.getCircuitBreaker parseHost cfgOn mgr url).1 =
      some ⟨"Host-" ++ host, 10, 2, 120000, 60000⟩ ∧
    Breakers.getCircuitBreaker parseHost cfgOn
        (Breakers.getCircuitBreaker parseHost cfgOn mgr url).2 url2 =
      ((Breakers.getCircuitBreaker parseHost cfgOn mgr url).1,
        (Breakers.getCircuitBreaker parseHost cfgOn mgr url).2) := by
  refine ⟨?_, ?_, ?_, ?_⟩
  · simp [Breakers.getCircuitBreaker, hoff]
  · simp [Breakers.mkManager, henab, hdl]
  · simp [Breakers.getCircuitBreaker, hon, hurl, hlook, hf, ht]
  · have hfirst :
        Breakers.getCircuitBreaker parseHost cfgOn mgr url =
          (some ⟨"Host-" ++ host,
              ((cfgOn.bind (·.perHost)).getD ⟨none, none, none⟩).failureThreshold.getD 10,
              2,
              ((cfgOn.bind (·.perHost)).getD ⟨none, none, none⟩).timeout.getD 120000,
              60000⟩,
            { mgr with hostCircuitBreakers :=
                (host, ⟨"Host-" ++ host,
                  ((cfgOn.bind (·.perHost)).getD ⟨none, none, none⟩).failureThreshold.getD 10,
                  2,
                  ((cfgOn.bind (·.perHost)).getD ⟨none, none, none⟩).timeout.getD 120000,
                  60000⟩) :: mgr.hostCircuitBreakers }) := by
      simp [Breakers.getCircuitBreaker, hon, hurl, hlook]
    rw [hfirst]
    simp [Breakers.getCircuitBreaker, hon, hurl2, List.lookup]

/-- Witness for C4: a configuration with the feature enabled and per-host
mode off, another with per-host mode on, and two URLs of the host
`cdn.example`, starting from the freshly constructed managers. -/
theorem circuitBreakerManager_mode_selection_witness :
    Breakers.getCircuitBreaker
        (fun u => if u = "https://cdn.example/x" ∨ u = "https://cdn.example/y"
          then some "cdn.example" else none)
        (some ⟨some true, none, none⟩)
        (Breakers.mkManager (some ⟨some true, none, none⟩))
        "https://cdn.example/x" =
      ((Breakers.mkManager (some ⟨some true, none, none⟩)).globalCircuitBreaker,
        Breakers.mkManager (some ⟨some true, none, none⟩)) ∧
    (Breakers.mkManager (some ⟨some true, none, none⟩)).globalCircuitBreaker =
      some ⟨"DownloadEngine", 5, 2, 60000, 60000⟩ ∧
    (Breakers.getCircuitBreaker
        (fun u => if u = "https://cdn.example/x" ∨ u = "https://cdn.example/y"
          then some "cdn.example" else none)
        (some ⟨some true, none, some ⟨some true, none, none⟩⟩)
        (Breakers.mkManager (some ⟨some true, none, some ⟨some true, none, none⟩⟩))
        "https://cdn.example/x").1 =
      some ⟨"Host-" ++ "cdn.example", 10, 2, 120000, 60000⟩ ∧
    Breakers.getCircuitBreaker
        (fun u => if u = "https://cdn.example/x" ∨ u = "https://cdn.example/y"
          then some "cdn.example" else none)
        (some ⟨some true, none, some ⟨some true, none, none⟩⟩)
        (Breakers.getCircuitBreaker
          (fun u => if u = "https://cdn.example/x" ∨ u = "https://cdn.example/y"
            then some "cdn.example" else none)
          (some ⟨some true, none, some ⟨some true, none, none⟩⟩)
          (Breakers.mkManager (some ⟨some true, none, some ⟨some true, none, none⟩⟩))
          "https://cdn.example/x").2
        "https://cdn.example/y" =
      ((Breakers.getCircuitBreaker
          (fun u => if u = "https://cdn.example/x" ∨ u = "https://cdn.example/y"
            then some "cdn.example" else none)
          (some ⟨some true, none, some ⟨some true, none, none⟩⟩)
          (Breakers.mkManager (some ⟨some true, none, some ⟨some true, none, none⟩⟩))
          "https://cdn.example/x").1,
        (Breakers.getCircuitBreaker
          (fun u => if u = "https://cdn.example/x" ∨ u = "https://cdn.example/y"
            then some "cdn.example" else none)
          (some ⟨some true, none, some ⟨some true, none, none⟩⟩)
          (Breakers.mkManager (some ⟨some true, none, some ⟨some true, none, none⟩⟩))
          "https://cdn.example/x").2) :=
  circuitBreakerManager_mode_selection
    (some ⟨some true, none, none⟩)
    (some ⟨some true, none, some ⟨some true, none, none⟩⟩)
    (fun u => if u = "https://cdn.example/x" ∨ u = "https://cdn.example/y"
      then some "cdn.example" else none)
    (Breakers.mkManager (some ⟨some true, none, none⟩))
    (Breakers.mkManager (some ⟨some true, none, some ⟨some true, none, none⟩⟩))
    "https://cdn.example/x" "https://cdn.example/y" "cdn.example"
    (by decide) (by decide) (by decide) (by decide)
    (by simp) (by simp) (by decide) (by decide) (by decide)

/-- C5: `selectDownloadsToStart` returns an empty `toStart` whenever the
queued fetch is empty or there is no available global slot, and every item
it does return carries a non-null id outside `options.excludeIds`. -/
theorem queueProcessor_selectDownloadsToStart_safe
    (ssE ss : Queue.StateStoreModel) (sched : Queue.SchedulerModel)
    (ccZ cc : Queue.ConcurrencyControllerModel) (options : Queue.SelectOptions)
    (hE : ssE.getDownloadsByStateLimited .queued options.maxQueueBatchSize = [])
    (hZ : ccZ.getAvailableGlobalSlots ≤ 0) :
    (Queue.selectDownloadsToStart ssE sched cc options).toStart = [] ∧
    (Queue.selectDownloadsToStart ss sched ccZ options).toStart = [] ∧
    ∀ d ∈ (Queue.selectDownloadsToStart ss sched cc options).toStart,
      ∃ i, d.id = some i ∧ Queue.hasId options.excludeIds i = false := by
  refine ⟨?_, ?_, ?_⟩
  · simp [Queue.selectDownloadsToStart, hE]
  · simp only [Queue.selectDownloadsToStart]
    split_ifs <;> simp_all
  · intro d hd
    simp only [Queue.selectDownloadsToStart] at hd
    split_ifs at hd with h1 h2
    · simp at hd
    · simp at hd
    · have hp := (List.mem_filter.mp hd).2
      cases hdid : d.id with
      | none => rw [hdid] at hp; simp at hp
      | some i =>
        rw [hdid] at hp
        exact ⟨i, rfl, by simpa using hp⟩

/-- Witness for C5: a store whose queued fetch is empty, a controller with
zero slots, and a populated run in which the scheduler returns the rows
with ids 1, 2 and a malformed null-id row while id 2 is excluded. -/
theorem queueProcessor_selectDownloadsToStart_safe_witness :
    (Queue.selectDownloadsToStart ⟨fun _ _ => [], 0⟩
      ⟨fun q _ _ => q⟩ ⟨2, 0⟩ ⟨100, some [2]⟩).toStart = [] ∧
    (Queue.selectDownloadsToStart
      ⟨fun _ _ => [⟨some 1⟩, ⟨some 2⟩, ⟨none⟩], 3⟩
      ⟨fun q _ _ => q⟩ ⟨0, 0⟩ ⟨100, some [2]⟩).toStart = [] ∧
    ∀ d ∈ (Queue.selectDownloadsToStart
        ⟨fun _ _ => [⟨some 1⟩, ⟨some 2⟩, ⟨none⟩], 3⟩
        ⟨fun q _ _ => q⟩ ⟨2, 0⟩ ⟨100, some [2]⟩).toStart,
      ∃ i, d.id = some i ∧ Queue.hasId (some [2]) i = false :=
  queueProcessor_selectDownloadsToStart_safe
    ⟨fun _ _ => [], 0⟩ ⟨fun _ _ => [⟨some 1⟩, ⟨some 2⟩, ⟨none⟩], 3⟩
    ⟨fun q _ _ => q⟩ ⟨0, 0⟩ ⟨2, 0⟩ ⟨100, some [2]⟩ rfl (by decide)

/-- C6 counterexample: for the key `""` (the invalid-identifier guard),
`isAllowed` returns false and records nothing although zero of its
recorded timestamps fall within the window, which is strictly fewer than
`maxRequests = 1` — so the claim quantified over every key fails. -/
theorem rateLimiter_isAllowed_empty_key_counterexample :
    ¬ (((Limiter.isAllowed ⟨1, 1000⟩ "" 0 (fun _ => [])).1 = true) ↔
      (((((fun _ => ([] : List Int)) "").filter
        (fun ts => (0 : Int) - ts < 1000)).length : Int) < 1)) := by
  decide

/-- C6, amended to every non-empty key: `isAllowed(key)` returns true and
appends the current timestamp exactly when strictly fewer than
`maxRequests` recorded timestamps fall within the trailing window
(timestamps at or beyond `windowMs` age never count); at or over budget it
returns false and leaves the map untouched. -/
theorem rateLimiter_isAllowed_sliding_window
    (rl : Limiter.RateLimiter) (key : String) (now : Int) (m : Limiter.RMap)
    (hkey : key ≠ "") :
    ((Limiter.isAllowed rl key now m).1 = true ↔
      (((m key).filter (fun ts => now - ts < rl.windowMs)).length : Int) <
        rl.maxRequests) ∧
    ((((m key).filter (fun ts => now - ts < rl.windowMs)).length : Int) <
        rl.maxRequests →
      (Limiter.isAllowed rl key now m).2 key =
        (m key).filter (fun ts => now - ts < rl.windowMs) ++ [now] ∧
      ∀ k2, k2 ≠ key → (Limiter.isAllowed rl key now m).2 k2 = m k2) ∧
    (rl.maxRequests ≤
        (((m key).filter (fun ts => now - ts < rl.windowMs)).length : Int) →
      (Limiter.isAllowed rl key now m).2 = m) := by
  simp only [Limiter.isAllowed, if_neg hkey]
  by_cases hcmp : rl.maxRequests ≤
      ((((m key).filter (fun ts => now - ts < rl.windowMs)).length : Int))
  · rw [if_pos hcmp]
    refine ⟨?_, ?_, fun _ => rfl⟩
    · simp [not_lt.mpr hcmp]
    · intro h
      exact absurd h (not_lt.mpr hcmp)
  · rw [if_neg hcmp]
    refine ⟨by simp [lt_of_not_le hcmp], ?_, ?_⟩
    · intro _
      refine ⟨?_, ?_⟩
      · simp [Limiter.rmapSet]
      · intro k2 hk2
        simp [Limiter.rmapSet, hk2]
    · intro h
      exact absurd h hcmp

/-- Witness for C6 (amended): key `hosta`, window 1000 ms, budget 2, one
recent timestamp (50) and one stale timestamp (−2000) at time 100: the
request is allowed. -/
theorem rateLimiter_isAllowed_sliding_window_witness :
    (Limiter.isAllowed ⟨2, 1000⟩ "hosta" 100 (fun _ => [50, -2000])).1 = true := by
  have h := rateLimiter_isAllowed_sliding_window ⟨2, 1000⟩ "hosta" 100
    (fun _ => [50, -2000]) (by decide)
  exact h.1.mpr (by decide)

/-- Evaluating `(if c then [] else [x])` to the empty list is exactly the check passing. -/
theorem ite_nil_iff (c : Prop) [Decidable c] (x : String) :
    (if c then ([] : List String) else [x]) = [] ↔ c := by
  split_ifs with hc <;> simp [hc]

/-- Evaluating `(if c then [x] else [])` to the empty list is exactly the check failing. -/
theorem ite_cons_nil_iff (c : Prop) [Decidable c] (x : String) :
    (if c then [x] else ([] : List String)) = [] ↔ ¬ c := by
  split_ifs with hc <;> simp [hc]

namespace Schemas

/-- One optional int field produces no issue exactly when any supplied
value is an integer inside the range. -/
theorem intIssues_eq_nil (label : String) (lo hi : ℚ) (o : Option ℚ) :
    intIssues label lo hi o = [] ↔ intInRange lo hi o := by
  cases o with
  | none => simp [intIssues, intInRange]
  | some v =>
    constructor
    · intro h w hw
      injection hw with hw
      subst hw
      unfold intIssues at h
      obtain ⟨hAB, hC⟩ := List.append_eq_nil.mp h
      obtain ⟨hA, hB⟩ := List.append_eq_nil.mp hAB
      refine ⟨?_, ?_, ?_⟩
      · by_contra hden
        rw [if_neg hden] at hA
        simp at hA
      · by_contra hlo
        rw [not_le] at hlo
        rw [if_pos hlo] at hB
        simp at hB
      · by_contra hhi
        rw [not_le] at hhi
        rw [if_pos hhi] at hC
        simp at hC
    · intro h
      obtain ⟨h1, h2, h3⟩ := h v rfl
      simp only [intIssues]
      rw [if_pos h1, if_neg (not_lt.mpr h2), if_neg (not_lt.mpr h3)]
      simp

/-- One optional numeric field produces no issue exactly when any supplied
value lies inside the range. -/
theorem numIssues_eq_nil (label : String) (lo hi : ℚ) (o : Option ℚ) :
    numIssues label lo hi o = [] ↔ numInRange lo hi o := by
  cases o with
  | none => simp [numIssues, numInRange]
  | some v =>
    constructor
    · intro h w hw
      injection hw with hw
      subst hw
      unfold numIssues at h
      obtain ⟨hB, hC⟩ := List.append_eq_nil.mp h
      refine ⟨?_, ?_⟩
      · by_contra hlo
        rw [not_le] at hlo
        rw [if_pos hlo] at hB
        simp at hB
      · by_contra hhi
        rw [not_le] at hhi
        rw [if_pos hhi] at hC
        simp at hC
    · intro h
      obtain ⟨h1, h2⟩ := h v rfl
      simp only [numIssues]
      rw [if_neg (not_lt.mpr h1), if_neg (not_lt.mpr h2)]
      simp

/-- Field `success` is exactly emptiness of the issue list. -/
theorem validateDownloadSettings_success (s : DownloadSettingsInput) :
    (validateDownloadSettings s).success = (downloadSettingsIssues s).isEmpty := by
  by_cases h : (downloadSettingsIssues s).isEmpty <;>
    simp [validateDownloadSettings, h]

/-- Field `error` is present whenever any issue exists. -/
theorem validateDownloadSettings_error (s : DownloadSettingsInput) :
    (validateDownloadSettings s).error.isSome = !(downloadSettingsIssues s).isEmpty := by
  by_cases h : (downloadSettingsIssues s).isEmpty <;>
    simp [validateDownloadSettings, h]

end Schemas

/-- C7: `validateDownloadSettings` succeeds exactly when every supplied
field lies in its enumerated range (`maxParallelDownloads` an integer in
1..10, `maxConcurrentChunks` an integer in 1..16, `maxChunkRetries` an
integer in 0..50, `chunkOperationTimeoutMinutes` in 0.5..60), and any
out-of-range value yields `success = false` together with an error
message. -/
theorem validateDownloadSettings_enumerated_ranges
    (s : Schemas.DownloadSettingsInput) :
    ((Schemas.validateDownloadSettings s).success = true ↔
      (Schemas.intInRange 1 10 s.maxParallelDownloads ∧
       Schemas.intInRange 1 16 s.maxConcurrentChunks ∧
       Schemas.intInRange 0 50 s.maxChunkRetries ∧
       Schemas.numInRange (1/2) 60 s.chunkOperationTimeoutMinutes)) ∧
    ((Schemas.validateDownloadSettings s).success = false →
      (Schemas.validateDownloadSettings s).error.isSome = true) := by
  constructor
  · rw [Schemas.validateDownloadSettings_success, List.isEmpty_iff,
      Schemas.downloadSettingsIssues]
    simp [List.append_eq_nil, Schemas.intIssues_eq_nil, Schemas.numIssues_eq_nil,
      and_assoc]
  · intro h
    rw [Schemas.validateDownloadSettings_error]
    rw [Schemas.validateDownloadSettings_success] at h
    simp [h]

/-- Witness for C7: a fully supplied valid settings object (3 parallel
downloads, 4 chunks, 0 retries, 1.5 minute timeout) is accepted, and an
out-of-range one (11 parallel downloads) is rejected with an error
message. -/
theorem validateDownloadSettings_enumerated_ranges_witness :
    (Schemas.validateDownloadSettings
      ⟨some 3, some 4, some 0, some (3/2), some true, none, none⟩).success = true ∧
    (Schemas.validateDownloadSettings
      ⟨some 11, none, none, none, none, none, none⟩).success = false ∧
    (Schemas.validateDownloadSettings
      ⟨some 11, none, none, none, none, none, none⟩).error.isSome = true := by
  have hgood := validateDownloadSettings_enumerated_ranges
    ⟨some 3, some 4, some 0, some (3/2), some true, none, none⟩
  have hbad := validateDownloadSettings_enumerated_ranges
    ⟨some 11, none, none, none, none, none, none⟩
  have hsucc : (Schemas.validateDownloadSettings
      ⟨some 3, some 4, some 0, some (3/2), some true, none, none⟩).success = true := by
    refine hgood.1.mpr ⟨?_, ?_, ?_, ?_⟩ <;>
      · intro v hv
        injection hv with hv
        subst hv
        norm_num [Schemas.intInRange, Schemas.numInRange]
  have hfail : (Schemas.validateDownloadSettings
      ⟨some 11, none, none, none, none, none, none⟩).success = false := by
    rcases hb : (Schemas.validateDownloadSettings
        ⟨some 11, none, none, none, none, none, none⟩).success with _ | _
    · rfl
    · exfalso
      have h11 := (hbad.1.mp hb).1 11 rfl
      norm_num at h11
  exact ⟨hsucc, hfail, hbad.2 hfail⟩


namespace Tail

/-- Hashing the last bytes of the whole file equals hashing
`lastBytes data (min nBytes size)`. -/
theorem hashLastNBytes_eq_lastBytes (hash : List Nat → String)
    (data : List Nat) (n : Nat) :
    hashLastNBytes hash data data.length n =
      hash (lastBytes data (min n data.length)) := by
  unfold hashLastNBytes lastBytes
  by_cases h : data.length = 0
  · rw [if_pos h]
    have hnil : data = [] := List.eq_nil_of_length_eq_zero h
    subst hnil
    simp
  · rw [if_neg h]
    dsimp only
    congr 1
    have hlen : (data.drop (data.length - min n data.length)).length ≤
        min n data.length := by
      rw [List.length_drop]
      omega
    exact List.take_of_length_le hlen

/-- Unfolding `verifyPartialTail` on a readable file. -/
theorem verifyPartialTail_some (hash : List Nat → String)
    (fsRead : String → Option (List Nat)) (filePath : String)
    (expectedSize : Nat) (expectedHash : String) (n : Nat) (data : List Nat)
    (hfs : fsRead filePath = some data) :
    verifyPartialTail hash fsRead filePath expectedSize expectedHash n =
      if data.length = expectedSize
      then (hashLastNBytes hash data data.length n == expectedHash)
      else false := by
  unfold verifyPartialTail
  rw [hfs]
  by_cases h : data.length = expectedSize
  · simp [h]
  · simp [h]

end Tail

/-- C2: `verifyPartialTail` with the default `PARTIAL_TAIL_BYTES = 65536`
returns true exactly when the file is readable, its size equals the
expected size, and the hex SHA-256 of its last `min(65536, size)` bytes
equals the expected hash; an unreadable file yields false, not an
exception. -/
theorem verifyPartialTail_checkpoint (hash : List Nat → String)
    (fsRead : String → Option (List Nat)) (filePath : String)
    (expectedSize : Nat) (expectedHash : String) :
    (Tail.verifyPartialTail hash fsRead filePath expectedSize expectedHash
        Tail.PARTIAL_TAIL_BYTES = true ↔
      ∃ data, fsRead filePath = some data ∧ data.length = expectedSize ∧
        hash (Tail.lastBytes data (min Tail.PARTIAL_TAIL_BYTES data.length)) =
          expectedHash) ∧
    (fsRead filePath = none →
      Tail.verifyPartialTail hash fsRead filePath expectedSize expectedHash
        Tail.PARTIAL_TAIL_BYTES = false) := by
  cases hfs : fsRead filePath with
  | none =>
    refine ⟨?_, fun _ => by simp [Tail.verifyPartialTail, hfs]⟩
    simp [Tail.verifyPartialTail, hfs]
  | some data =>
    refine ⟨?_, fun hn => absurd hn (by simp)⟩
    rw [Tail.verifyPartialTail_some hash fsRead filePath expectedSize
      expectedHash Tail.PARTIAL_TAIL_BYTES data hfs]
    by_cases hsz : data.length = expectedSize
    · rw [if_pos hsz, ← hsz, Tail.hashLastNBytes_eq_lastBytes]
      constructor
      · intro hh
        exact ⟨data, rfl, rfl, by simpa using hh⟩
      · rintro ⟨data2, hdata2, hlen2, hh⟩
        injection hdata2 with hd
        subst hd
        simpa using hh
    · rw [if_neg hsz]
      constructor
      · intro hh
        cases hh
      · rintro ⟨data2, hdata2, hlen2, hh⟩
        injection hdata2 with hd
        subst hd
        exact absurd hlen2 hsz

/-- Witness for C2: a three-byte file under a hash function that reports
the byte count; verification succeeds at the matching size and hash. -/
theorem verifyPartialTail_checkpoint_witness :
    Tail.verifyPartialTail (fun l => toString l.length)
      (fun p => if p = "f.part" then some [10, 20, 30] else none)
      "f.part" 3 "3" Tail.PARTIAL_TAIL_BYTES = true := by
  have h := verifyPartialTail_checkpoint (fun l => toString l.length)
    (fun p => if p = "f.part" then some [10, 20, 30] else none)
    "f.part" 3 "3"
  exact h.1.mpr ⟨[10, 20, 30], rfl, rfl, rfl⟩

/-- C8 (divergence on the code): on darwin the critical-directory list is
lowercased (`/system`, …) but the probed path is lowercased only on
Windows, so `validateDownloadPathSync` accepts `/System` — a reserved
critical OS directory of its own list — with no block at all, while the
same shape of input is correctly blocked as critical on linux.  `fun s =>
s` stands for `path.resolve`, which is the identity on these
already-absolute, already-normalized inputs. -/
theorem validateDownloadPathSync_critical_block_gap :
    Paths.validateDownloadPathSync (fun s => s) Paths.Platform.darwin "C:"
        "/System" =
      { valid := true, path := some "/System", error := none,
        blockReason := none, warningReason := none } ∧
    "/system" ∈ Paths.getCriticalSystemPaths (fun s => s)
      Paths.Platform.darwin "C:" ∧
    (Paths.validateDownloadPathSync (fun s => s) Paths.Platform.linux "C:"
      "/etc/sub").valid = false ∧
    (Paths.validateDownloadPathSync (fun s => s) Paths.Platform.linux "C:"
      "/etc/sub").blockReason = some "critical" ∧
    (Paths.validateDownloadPathSync (fun s => s) Paths.Platform.linux "C:"
      "/").blockReason = some "critical" := by
  decide

namespace Chunks

/-- A key that `lookup` misses belongs to no entry of the store. -/
theorem lookup_none_not_mem (key : String) (store : Store)
    (h : store.lookup key = none) : ∀ kv ∈ store, kv.1 ≠ key := by
  induction store with
  | nil =>
    intro kv hkv
    simp at hkv
  | cons hd tl ih =>
    obtain ⟨k, v⟩ := hd
    intro kv hkv
    rw [List.lookup] at h
    cases hbeq : (key == k) with
    | true =>
      rw [hbeq] at h
      simp at h
    | false =>
      rw [hbeq] at h
      have hne : k ≠ key := by
        intro he
        subst he
        simp at hbeq
      rcases List.mem_cons.mp hkv with rfl | hkv2
      · exact hne
      · exact ih h kv hkv2

/-- Method `cleanupChunk` is extensionally `Map.delete`: the filter keeping every
other key. -/
theorem cleanupChunk_eq_filter (key : String) (store : Store) :
    cleanupChunk key store = store.filter (fun kv => !(kv.1 == key)) := by
  unfold cleanupChunk
  cases h : store.lookup key with
  | none =>
    have hmem := lookup_none_not_mem key store h
    rw [List.filter_eq_self.mpr]
    intro kv hkv
    simpa using hmem kv hkv
  | some e => rfl

/-- Deleting a key makes it unfindable. -/
theorem lookup_filter_ne_none (key : String) (store : Store) :
    (store.filter (fun kv => !(kv.1 == key))).lookup key = none := by
  induction store with
  | nil => rfl
  | cons hd tl ih =>
    obtain ⟨k, v⟩ := hd
    by_cases h : k = key
    · subst h
      simpa using ih
    · have hcond : (!((k, v).1 == key)) = true := by simp [h]
      rw [List.filter_cons, if_pos hcond, List.lookup]
      have hbeq : (key == k) = false := by
        simp only [beq_eq_false_iff_ne, ne_eq]
        exact fun he => h he.symm
      rw [hbeq]
      exact ih

/-- Any entry surviving the fold over the key list was in the original
store and matches none of the folded keys that carry the prefix. -/
theorem mem_foldl_cleanup (pre : String) :
    ∀ (keys : List String) (st : Store) (kv : String × ActiveChunkEntry),
      kv ∈ keys.foldl
        (fun st k => if strStartsWith k pre then cleanupChunk k st else st) st →
      kv ∈ st ∧ ∀ k ∈ keys, strStartsWith k pre = true → kv.1 ≠ k := by
  intro keys
  induction keys with
  | nil =>
    intro st kv hkv
    exact ⟨hkv, by simp⟩
  | cons k ks ih =>
    intro st kv hkv
    rw [List.foldl_cons] at hkv
    obtain ⟨h1, h2⟩ := ih _ kv hkv
    by_cases hp : strStartsWith k pre = true
    · rw [if_pos hp, cleanupChunk_eq_filter] at h1
      have hmem := List.mem_filter.mp h1
      refine ⟨hmem.1, ?_⟩
      intro k2 hk2 hpk2
      rcases List.mem_cons.mp hk2 with rfl | hk2b
      · simpa using hmem.2
      · exact h2 k2 hk2b hpk2
    · rw [if_neg hp] at h1
      refine ⟨h1, ?_⟩
      intro k2 hk2 hpk2
      rcases List.mem_cons.mp hk2 with rfl | hk2b
      · exact absurd hpk2 hp
      · exact h2 k2 hk2b hpk2

end Chunks

/-- C10: after `cleanupForDownload(downloadId)` no key of the
active-chunk store starts with the download's prefix; `cleanupChunk` on a
key with no entry is a no-op; and `cleanupChunk` always removes its key
from the store — the `_store.delete` sits after the catch, so this holds
whatever the resource teardown does. -/
theorem chunkManager_cleanup_removes_keys
    (store : Chunks.Store) (d : Nat) (key missingKey : String)
    (hmiss : store.lookup missingKey = none) :
    (∀ kv ∈ Chunks.cleanupForDownload d store,
      strStartsWith kv.1 (toString d ++ "-") = false) ∧
    Chunks.cleanupChunk missingKey store = store ∧
    (Chunks.cleanupChunk key store).lookup key = none := by
  refine ⟨?_, ?_, ?_⟩
  · intro kv hkv
    unfold Chunks.cleanupForDownload at hkv
    obtain ⟨hmem, hall⟩ := Chunks.mem_foldl_cleanup (toString d ++ "-")
      (store.map Prod.fst) store kv hkv
    cases hb : strStartsWith kv.1 (toString d ++ "-") with
    | false => rfl
    | true =>
      exact absurd rfl
        (hall kv.1 (List.mem_map_of_mem Prod.fst hmem) hb)
  · unfold Chunks.cleanupChunk
    rw [hmiss]
  · rw [Chunks.cleanupChunk_eq_filter]
    exact Chunks.lookup_filter_ne_none key store

/-- Witness for C10: a store with chunks 0 and 1 of download 1 and chunk
0 of download 12; the missing key 7-0 has no entry. -/
theorem chunkManager_cleanup_removes_keys_witness :
    (∀ kv ∈ Chunks.cleanupForDownload 1
        [("1-0", ⟨none, none, none, none, none, false⟩),
         ("1-1", ⟨none, none, none, none, none, true⟩),
         ("12-0", ⟨none, none, none, none, none, false⟩)],
      strStartsWith kv.1 (toString 1 ++ "-") = false) ∧
    Chunks.cleanupChunk "7-0"
        [("1-0", ⟨none, none, none, none, none, false⟩),
         ("1-1", ⟨none, none, none, none, none, true⟩),
         ("12-0", ⟨none, none, none, none, none, false⟩)] =
      [("1-0", ⟨none, none, none, none, none, false⟩),
       ("1-1", ⟨none, none, none, none, none, true⟩),
       ("12-0", ⟨none, none, none, none, none, false⟩)] ∧
    (Chunks.cleanupChunk "1-0"
        [("1-0", ⟨none, none, none, none, none, false⟩),
         ("1-1", ⟨none, none, none, none, none, true⟩),
         ("12-0", ⟨none, none, none, none, none, false⟩)]).lookup "1-0" =
      none :=
  chunkManager_cleanup_removes_keys
    [("1-0", ⟨none, none, none, none, none, false⟩),
     ("1-1", ⟨none, none, none, none, none, true⟩),
     ("12-0", ⟨none, none, none, none, none, false⟩)]
    1 "1-0" "7-0" (by decide)
